import Mathlib

/-!
Verification development for the crowdScope dashboard controller
(`src/script.js`).

The script is browser-side UI glue: it binds a video element to a live
feed URL, polls a `/status` endpoint every second, renders a list of
recordings fetched from `/recordings`, and reacts to start / stop /
refresh button clicks and video errors.

The shallow embedding below mirrors the script:

* `St` is the mutable state the script touches: the DOM regions it
  writes (video source, head count, recording label, status-indicator
  class, status text, motion status, recordings list), the `isRunning`
  flag, and the `statusInterval` timer handle (modelled as the interval
  period when active).  Two ghost fields track observable effects:
  `statusFetchCount` counts status fetches issued and `log` collects
  console-error messages.
* Network interaction is modelled by passing each operation the outcome
  of its fetch: `FetchOutcome.networkError` for a rejected fetch, and
  `FetchOutcome.response ok body` for an HTTP response where `ok` is the
  HTTP success flag (which the script never inspects) and `body` is the
  result of parsing the body as JSON (`none` when parsing throws).
* The event handlers registered by `init` become the `step` function on
  events; timer ticks fire only while `statusInterval` is set.
* The regex `motion_(\d{8})_(\d{6})\.avi` used on recording filenames is
  modelled by `searchMotion`, a leftmost unanchored matcher over the
  string's characters.
-/

namespace CrowdScope

/-- JSON body of a successful `/status` response, as consumed by
`updateStatus` (`data.headCount`, `data.recording`, `data.status`,
`data.motionStatus`). -/
structure StatusData where
  headCount : Int
  recording : Bool
  status : String
  motionStatus : String
deriving DecidableEq, Repr

/-- Outcome of a `fetch` as observed by the script: the promise rejects
(`networkError`), or a response arrives with HTTP-success flag `ok` and a
body whose JSON parse yields `body` (`none` when `response.json()`
throws). -/
inductive FetchOutcome (α : Type) where
  | networkError : FetchOutcome α
  | response (ok : Bool) (body : Option α) : FetchOutcome α
deriving DecidableEq, Repr

/-- One rendered recording entry: the title shown (`dateStr`) and the
download navigation target built from `OUTPUT_FOLDER` and the filename. -/
structure RecItem where
  title : String
  downloadHref : String
deriving DecidableEq, Repr

/-- Contents of the `recordings-list` element: its initial HTML before the
script first writes it, a literal paragraph message, or a list of
appended recording items. -/
inductive RecListView where
  | initial (html : String)
  | message (text : String)
  | items (l : List RecItem)
deriving DecidableEq, Repr

/-- The state the script reads and writes: the DOM regions, the
`isRunning` flag and the `statusInterval` handle (stored as the interval
period in milliseconds when a timer is active), plus ghost fields
`statusFetchCount` (number of status fetches issued) and `log`
(console-error messages, most recent first). -/
structure St where
  isRunning : Bool
  statusInterval : Option Nat
  videoSrc : String
  headCount : String
  recordingStatus : String
  statusIndicator : String
  statusText : String
  motionStatus : String
  recordingsList : RecListView
  statusFetchCount : Nat
  log : List String
deriving DecidableEq, Repr

/-- The constant `VIDEO_FEED_URL`: the live feed URL, built from the page origin. -/
def VIDEO_FEED_URL (origin : String) : String := origin ++ "/video_feed"

/-- The constant `STATUS_URL`: the status endpoint. -/
def STATUS_URL (origin : String) : String := origin ++ "/status"

/-- The constant `RECORDINGS_URL`: the recordings endpoint. -/
def RECORDINGS_URL (origin : String) : String := origin ++ "/recordings"

/-- Environment of the script: the page origin (for the endpoint URLs) and
the value of the global `OUTPUT_FOLDER` binding if one exists outside this
file (`none` when the identifier is undefined, as it is in the file
itself). -/
structure Cfg where
  origin : String
  outputFolder : Option String
deriving DecidableEq, Repr

/-- The operation `updateStatus`: issues a status fetch and, on a successfully parsed
body, writes head count, recording label, indicator class, status text
and motion status; any thrown error (rejected fetch or JSON parse
failure) is caught and only logged.  The HTTP `ok` flag is never
inspected. -/
def updateStatus (r : FetchOutcome StatusData) (s : St) : St :=
  match r with
  | .networkError =>
      { s with statusFetchCount := s.statusFetchCount + 1,
               log := "Error fetching status:" :: s.log }
  | .response _ none =>
      { s with statusFetchCount := s.statusFetchCount + 1,
               log := "Error fetching status:" :: s.log }
  | .response _ (some data) =>
      { s with statusFetchCount := s.statusFetchCount + 1,
               headCount := toString data.headCount,
               recordingStatus :=
                 if data.recording then "Recording" else "Not Recording",
               statusIndicator :=
                 if data.recording then "status-indicator recording"
                 else "status-indicator monitoring",
               statusText := data.status,
               motionStatus := data.motionStatus }

/-- The operation `startStatusUpdates`: clears any existing interval, runs
`updateStatus` once immediately, then schedules it every 1000 ms. -/
def startStatusUpdates (r : FetchOutcome StatusData) (s : St) : St :=
  { updateStatus r s with statusInterval := some 1000 }

/-- The operation `stopStatusUpdates`: clears the interval when one is active, no-op
otherwise. -/
def stopStatusUpdates (s : St) : St :=
  match s.statusInterval with
  | none => s
  | some _ => { s with statusInterval := none }

/-- The literal characters `motion_` of the filename regex. -/
def motionLit : List Char := ['m', 'o', 't', 'i', 'o', 'n', '_']

/-- The literal characters `.avi` of the filename regex. -/
def aviLit : List Char := ['.', 'a', 'v', 'i']

/-- The character sequence matched by `motion_(\d{8})_(\d{6})\.avi` when
the two capture groups are `d8` and `d6`. -/
def motionPat (d8 d6 : List Char) : List Char :=
  motionLit ++ (d8 ++ ('_' :: (d6 ++ aviLit)))

/-- Side conditions on the capture groups: exactly eight and six decimal
digits. -/
def MotionDigits (d8 d6 : List Char) : Prop :=
  d8.length = 8 ∧ (∀ c ∈ d8, c.isDigit = true) ∧
    d6.length = 6 ∧ (∀ c ∈ d6, c.isDigit = true)

instance (d8 d6 : List Char) : Decidable (MotionDigits d8 d6) := by
  unfold MotionDigits
  infer_instance

/-- Strips a literal character sequence from the front of the input,
returning the remainder on success. -/
def dropLit : List Char → List Char → Option (List Char)
  | [], cs => some cs
  | _ :: _, [] => none
  | l :: ls, c :: cs => if c = l then dropLit ls cs else none

/-- Consumes exactly `n` decimal digits from the front of the input,
returning them and the remainder. -/
def takeDigits : Nat → List Char → Option (List Char × List Char)
  | 0, cs => some ([], cs)
  | _ + 1, [] => none
  | n + 1, c :: cs =>
      if c.isDigit then
        match takeDigits n cs with
        | some (ds, rest) => some (c :: ds, rest)
        | none => none
      else none

/-- Attempts to match `motion_(\d{8})_(\d{6})\.avi` at the start of the
input, returning the two capture groups. -/
def matchAt (cs : List Char) : Option (List Char × List Char) :=
  match dropLit motionLit cs with
  | none => none
  | some r1 =>
      match takeDigits 8 r1 with
      | none => none
      | some (d8, r2) =>
          match dropLit ['_'] r2 with
          | none => none
          | some r3 =>
              match takeDigits 6 r3 with
              | none => none
              | some (d6, r4) =>
                  match dropLit aviLit r4 with
                  | none => none
                  | some _ => some (d8, d6)

/-- Unanchored leftmost search for `motion_(\d{8})_(\d{6})\.avi`, the
semantics of `recording.match(...)` in `fetchRecordings`. -/
def searchMotion : List Char → Option (List Char × List Char)
  | [] => none
  | c :: cs =>
      match matchAt (c :: cs) with
      | some g => some g
      | none => searchMotion cs

/-- The `dateStr` built from the two capture groups:
`YYYY-MM-DD HH:MM:SS` via `substring` slices of the digit groups. -/
def fmtTitle (d8 d6 : List Char) : String :=
  String.mk (d8.take 4 ++ ('-' :: ((d8.drop 4).take 2 ++ ('-' ::
    ((d8.drop 6).take 2 ++ (' ' :: (d6.take 2 ++ (':' ::
      ((d6.drop 2).take 2 ++ (':' :: (d6.drop 4).take 2))))))))))

/-- Title shown for one recording filename: the reformatted date when the
regex matches, the raw filename otherwise. -/
def formatRecording (s : String) : String :=
  match searchMotion s.data with
  | some (d8, d6) => fmtTitle d8 d6
  | none => s

/-- Building one recording entry's markup.  The template literal reads
the global `OUTPUT_FOLDER`; with no binding for it (`none`) the
evaluation throws a `ReferenceError` before the item can be appended. -/
def renderItem (outputFolder : Option String) (recording : String) :
    Except Unit RecItem :=
  match outputFolder with
  | none => .error ()
  | some f => .ok ⟨formatRecording recording, "/" ++ f ++ "/" ++ recording⟩

/-- The `forEach` over the recordings: builds each item in order, and the
first thrown error aborts the loop. -/
def renderItems (outputFolder : Option String) :
    List String → Except Unit (List RecItem)
  | [] => .ok []
  | r :: rs =>
      match renderItem outputFolder r with
      | .error e => .error e
      | .ok it =>
          match renderItems outputFolder rs with
          | .error e => .error e
          | .ok its => .ok (it :: its)

/-- The operation `fetchRecordings`: fetches the recordings listing, clears the list,
renders the placeholder for an empty array, else appends one entry per
filename; any thrown error (rejected fetch, JSON parse failure, or the
undefined `OUTPUT_FOLDER` reference) reaches the catch branch, which logs
and replaces the list with the error message. -/
def fetchRecordings (outputFolder : Option String)
    (r : FetchOutcome (List String)) (s : St) : St :=
  match r with
  | .networkError =>
      { s with recordingsList := .message "Error loading recordings.",
               log := "Error fetching recordings:" :: s.log }
  | .response _ none =>
      { s with recordingsList := .message "Error loading recordings.",
               log := "Error fetching recordings:" :: s.log }
  | .response _ (some recordings) =>
      if recordings.length = 0 then
        { s with recordingsList := .message "No recordings found." }
      else
        match renderItems outputFolder recordings with
        | .ok its => { s with recordingsList := .items its }
        | .error _ =>
            { s with recordingsList := .message "Error loading recordings.",
                     log := "Error fetching recordings:" :: s.log }

/-- Identifiers the script itself declares (const/let/function names and
the local variables of its callbacks).  `OUTPUT_FOLDER` is not among
them. -/
def scriptDefinedNames : List String :=
  ["videoFeed", "statusIndicator", "statusText", "headCount",
   "recordingStatus", "motionStatus", "startBtn", "stopBtn", "refreshBtn",
   "recordingsList", "API_BASE_URL", "VIDEO_FEED_URL", "STATUS_URL",
   "RECORDINGS_URL", "isRunning", "statusInterval", "startStatusUpdates",
   "stopStatusUpdates", "updateStatus", "fetchRecordings", "init",
   "response", "data", "error", "recordings", "recording",
   "recordingItem", "dateMatch", "dateStr", "year", "month", "day",
   "hour", "minute", "second"]

/-- The events the page can deliver after `init`: clicks on the three
buttons, a video-element error, and a timer tick.  Events whose handler
issues a fetch carry that fetch's outcome. -/
inductive Ev where
  | startClick (r : FetchOutcome StatusData)
  | stopClick
  | refreshClick (r : FetchOutcome (List String))
  | videoError
  | tick (r : FetchOutcome StatusData)
deriving DecidableEq, Repr

/-- Whether an event is a start-button click. -/
def Ev.isStart : Ev → Bool
  | .startClick _ => true
  | _ => false

/-- Whether an event is a stop-button click. -/
def Ev.isStop : Ev → Bool
  | .stopClick => true
  | _ => false

/-- One event-loop step: the handlers registered by `init`, plus the
interval firing `updateStatus` while a timer is active. -/
def step (cfg : Cfg) (s : St) : Ev → St
  | .startClick r =>
      if s.isRunning then s
      else
        { startStatusUpdates r
            { s with videoSrc := VIDEO_FEED_URL cfg.origin } with
          isRunning := true }
  | .stopClick =>
      if s.isRunning then
        { stopStatusUpdates { s with videoSrc := "" } with
          isRunning := false,
          statusText := "Stopped",
          statusIndicator := "status-indicator monitoring",
          recordingStatus := "Not Recording",
          headCount := "0",
          motionStatus := "System Stopped" }
      else s
  | .refreshClick r => fetchRecordings cfg.outputFolder r s
  | .videoError =>
      { s with statusText := "Connection Error",
               log := "Video feed error" :: s.log }
  | .tick r =>
      match s.statusInterval with
      | none => s
      | some _ => updateStatus r s

/-- Contents of the DOM elements as the page loads, before the script
writes anything. -/
structure DomInit where
  videoSrc : String
  headCount : String
  recordingStatus : String
  statusIndicator : String
  statusText : String
  motionStatus : String
  recordingsHTML : String
deriving DecidableEq, Repr

/-- The state at the moment the DOMContentLoaded callback begins:
`isRunning` is already `true` and no interval exists yet. -/
def initSt (d : DomInit) : St :=
  { isRunning := true,
    statusInterval := none,
    videoSrc := d.videoSrc,
    headCount := d.headCount,
    recordingStatus := d.recordingStatus,
    statusIndicator := d.statusIndicator,
    statusText := d.statusText,
    motionStatus := d.motionStatus,
    recordingsList := .initial d.recordingsHTML,
    statusFetchCount := 0,
    log := [] }

/-- The `init` function: sets the video source to the live feed URL, starts status
updates, and performs the initial recordings fetch; `r0` and `rr` are the
outcomes of those two fetches. -/
def runInit (cfg : Cfg) (d : DomInit) (r0 : FetchOutcome StatusData)
    (rr : FetchOutcome (List String)) : St :=
  fetchRecordings cfg.outputFolder rr
    (startStatusUpdates r0
      { initSt d with videoSrc := VIDEO_FEED_URL cfg.origin })

/-- Splits a character sequence at spaces, accumulating the current
token in reverse. -/
def splitSpacesAux : List Char → List Char → List (List Char)
  | [], acc => [acc.reverse]
  | c :: cs, acc =>
      if c = ' ' then acc.reverse :: splitSpacesAux cs []
      else splitSpacesAux cs (c :: acc)

/-- Whether a DOM `className` string carries a given class, i.e. the
class appears among its space-separated tokens. -/
def hasClass (className cls : String) : Bool :=
  (splitSpacesAux className.data []).contains cls.data

/-- A concrete environment used to instantiate the theorems. -/
def sampleCfg : Cfg := ⟨"http://localhost:8080", some "output"⟩

/-- Concrete initial DOM contents used to instantiate the theorems. -/
def sampleDom : DomInit :=
  ⟨"", "0", "Not Recording", "status-indicator", "Loading", "Idle", ""⟩

/-- A concrete running state used to instantiate the theorems. -/
def sampleSt : St :=
  { isRunning := true,
    statusInterval := some 1000,
    videoSrc := "http://localhost:8080/video_feed",
    headCount := "2",
    recordingStatus := "Not Recording",
    statusIndicator := "status-indicator monitoring",
    statusText := "Monitoring",
    motionStatus := "No Motion",
    recordingsList := .message "No recordings found.",
    statusFetchCount := 3,
    log := [] }

/-- A concrete stopped state used to instantiate the theorems. -/
def stoppedSt : St :=
  { sampleSt with isRunning := false, statusInterval := none, videoSrc := "" }

/-- A concrete status body with `recording = true`. -/
def sampleData : StatusData := ⟨2, true, "Monitoring", "Motion Detected"⟩

/-- A concrete status body with `recording = false`. -/
def sampleDataOff : StatusData := ⟨0, false, "Idle", "No Motion"⟩

/-- A concrete status body whose fields differ from `sampleSt`'s display
regions. -/
def cexData : StatusData := ⟨7, true, "Active", "Motion Detected"⟩

/-- The state invariant maintained by the handlers: while running, a
1000 ms interval is active and the video source is the live feed URL;
while stopped, no interval is active and the video source is blank. -/
def RunInv (cfg : Cfg) (s : St) : Prop :=
  (s.isRunning = true →
    s.statusInterval = some 1000 ∧ s.videoSrc = VIDEO_FEED_URL cfg.origin) ∧
  (s.isRunning = false → s.statusInterval = none ∧ s.videoSrc = "")

/-! ### Lemmas about the filename matcher -/

theorem dropLit_append (l rest : List Char) : dropLit l (l ++ rest) = some rest := by
  induction l with
  | nil => rfl
  | cons c cs ih => simp [dropLit, ih]

theorem dropLit_sound {l : List Char} :
    ∀ {cs r : List Char}, dropLit l cs = some r → cs = l ++ r := by
  induction l with
  | nil =>
      intro cs r h
      simp [dropLit] at h
      simp [h]
  | cons a ls ih =>
      intro cs r h
      cases cs with
      | nil => simp [dropLit] at h
      | cons b cs' =>
          by_cases hba : b = a
          · simp only [dropLit, hba, if_pos rfl] at h
            simp [hba, ih h]
          · simp [dropLit, hba] at h

theorem takeDigits_append (ds rest : List Char)
    (hdig : ∀ c ∈ ds, c.isDigit = true) :
    takeDigits ds.length (ds ++ rest) = some (ds, rest) := by
  induction ds with
  | nil => rfl
  | cons c ds ih =>
      have hc : c.isDigit = true := hdig c (by simp)
      simp [takeDigits, hc, ih fun x hx => hdig x (by simp [hx])]

theorem takeDigits_sound :
    ∀ {n : Nat} {cs ds r : List Char}, takeDigits n cs = some (ds, r) →
      cs = ds ++ r ∧ ds.length = n ∧ ∀ c ∈ ds, c.isDigit = true := by
  intro n
  induction n with
  | zero =>
      intro cs ds r h
      simp [takeDigits] at h
      simp [h.1, h.2]
  | succ n ih =>
      intro cs ds r h
      cases cs with
      | nil => simp [takeDigits] at h
      | cons c cs' =>
          by_cases hc : c.isDigit
          · simp only [takeDigits, hc, if_pos rfl] at h
            cases hd : takeDigits n cs' with
            | none => rw [hd] at h; simp at h
            | some p =>
                obtain ⟨ds', r'⟩ := p
                rw [hd] at h
                simp at h
                obtain ⟨hds, hr⟩ := h
                obtain ⟨h1, h2, h3⟩ := ih hd
                subst hds
                subst hr
                refine ⟨by simp [h1], by simp [h2], ?_⟩
                intro x hx
                rcases List.mem_cons.mp hx with hx | hx
                · subst hx; exact hc
                · exact h3 x hx
          · simp [takeDigits, hc] at h

theorem matchAt_complete {d8 d6 : List Char} (suf : List Char)
    (h : MotionDigits d8 d6) : matchAt (motionPat d8 d6 ++ suf) = some (d8, d6) := by
  obtain ⟨h8, hd8, h6, hd6⟩ := h
  have e8 : takeDigits 8 (d8 ++ ('_' :: (d6 ++ (aviLit ++ suf)))) =
      some (d8, '_' :: (d6 ++ (aviLit ++ suf))) := by
    rw [← h8]; exact takeDigits_append d8 _ hd8
  have e6 : takeDigits 6 (d6 ++ (aviLit ++ suf)) = some (d6, aviLit ++ suf) := by
    rw [← h6]; exact takeDigits_append d6 _ hd6
  have e1 : dropLit motionLit (motionPat d8 d6 ++ suf) =
      some (d8 ++ ('_' :: (d6 ++ (aviLit ++ suf)))) := by
    have : motionPat d8 d6 ++ suf =
        motionLit ++ (d8 ++ ('_' :: (d6 ++ (aviLit ++ suf)))) := by
      simp [motionPat, List.append_assoc]
    rw [this, dropLit_append]
  have e2 : dropLit ['_'] ('_' :: (d6 ++ (aviLit ++ suf))) =
      some (d6 ++ (aviLit ++ suf)) := dropLit_append ['_'] _
  simp only [matchAt, e1, e8, e2, e6, dropLit_append]

theorem matchAt_sound {cs d8 d6 : List Char}
    (h : matchAt cs = some (d8, d6)) :
    (∃ suf, cs = motionPat d8 d6 ++ suf) ∧ MotionDigits d8 d6 := by
  unfold matchAt at h
  cases e1 : dropLit motionLit cs with
  | none => rw [e1] at h; simp at h
  | some r1 =>
      rw [e1] at h
      simp only [] at h
      cases e8 : takeDigits 8 r1 with
      | none => rw [e8] at h; simp at h
      | some p8 =>
          obtain ⟨d8', r2⟩ := p8
          rw [e8] at h
          simp only [] at h
          cases e2 : dropLit ['_'] r2 with
          | none => rw [e2] at h; simp at h
          | some r3 =>
              rw [e2] at h
              simp only [] at h
              cases e6 : takeDigits 6 r3 with
              | none => rw [e6] at h; simp at h
              | some p6 =>
                  obtain ⟨d6', r4⟩ := p6
                  rw [e6] at h
                  simp only [] at h
                  cases e4 : dropLit aviLit r4 with
                  | none => rw [e4] at h; simp at h
                  | some r5 =>
                      rw [e4] at h
                      simp at h
                      obtain ⟨hd8, hd6⟩ := h
                      subst hd8
                      subst hd6
                      have q1 := dropLit_sound e1
                      have q8 := takeDigits_sound e8
                      have q2 := dropLit_sound e2
                      have q6 := takeDigits_sound e6
                      have q4 := dropLit_sound e4
                      refine ⟨⟨r5, ?_⟩, q8.2.1, q8.2.2, q6.2.1, q6.2.2⟩
                      rw [q1, q8.1, q2, q6.1, q4]
                      simp [motionPat, List.append_assoc]

theorem searchMotion_none :
    ∀ {cs : List Char}, searchMotion cs = none →
      ∀ pre d8 d6 suf, cs = pre ++ (motionPat d8 d6 ++ suf) →
        ¬ MotionDigits d8 d6 := by
  intro cs
  induction cs with
  | nil =>
      intro _ pre d8 d6 suf hcs _
      have hl := congrArg List.length hcs
      simp [motionPat, motionLit, aviLit] at hl
      omega
  | cons c cs ih =>
      intro h pre d8 d6 suf hcs hdig
      cases hm : matchAt (c :: cs) with
      | some g =>
          simp only [searchMotion] at h
          rw [hm] at h
          simp at h
      | none =>
          have hs : searchMotion cs = none := by
            simp only [searchMotion] at h
            rw [hm] at h
            exact h
          cases pre with
          | nil =>
              simp only [List.nil_append] at hcs
              have := matchAt_complete suf hdig
              rw [← hcs, hm] at this
              simp at this
          | cons a pre' =>
              injection hcs with _ h2
              exact ih hs pre' d8 d6 suf h2 hdig

theorem searchMotion_some :
    ∀ {cs : List Char} {d8 d6 : List Char}, searchMotion cs = some (d8, d6) →
      ∃ pre suf, cs = pre ++ (motionPat d8 d6 ++ suf) ∧ MotionDigits d8 d6 ∧
        ∀ pre2 d8b d6b suf2, cs = pre2 ++ (motionPat d8b d6b ++ suf2) →
          MotionDigits d8b d6b → pre.length ≤ pre2.length := by
  intro cs
  induction cs with
  | nil => intro d8 d6 h; simp [searchMotion] at h
  | cons c cs ih =>
      intro d8 d6 h
      cases hm : matchAt (c :: cs) with
      | some g =>
          simp only [searchMotion] at h
          rw [hm] at h
          simp at h
          subst h
          obtain ⟨⟨suf, hsuf⟩, hdig⟩ := matchAt_sound hm
          exact ⟨[], suf, by simpa using hsuf, hdig,
            fun pre2 _ _ _ _ _ => Nat.zero_le _⟩
      | none =>
          simp only [searchMotion] at h
          rw [hm] at h
          obtain ⟨pre, suf, hcs, hdig, hmin⟩ := ih h
          refine ⟨c :: pre, suf, by simp [hcs], hdig, ?_⟩
          intro pre2 d8b d6b suf2 h2 hdig2
          cases pre2 with
          | nil =>
              exfalso
              simp only [List.nil_append] at h2
              have := matchAt_complete suf2 hdig2
              rw [← h2, hm] at this
              simp at this
          | cons a pre2' =>
              injection h2 with _ h2'
              exact Nat.succ_le_succ (hmin pre2' d8b d6b suf2 h2' hdig2)

/-! ### Projection lemmas for the operations -/

theorem updateStatus_preserves (r : FetchOutcome StatusData) (s : St) :
    (updateStatus r s).isRunning = s.isRunning ∧
      (updateStatus r s).statusInterval = s.statusInterval ∧
      (updateStatus r s).videoSrc = s.videoSrc ∧
      (updateStatus r s).recordingsList = s.recordingsList := by
  cases r with
  | networkError => exact ⟨rfl, rfl, rfl, rfl⟩
  | response ok body => cases body <;> exact ⟨rfl, rfl, rfl, rfl⟩

@[simp] theorem updateStatus_isRunning (r : FetchOutcome StatusData) (s : St) :
    (updateStatus r s).isRunning = s.isRunning := (updateStatus_preserves r s).1

@[simp] theorem updateStatus_statusInterval (r : FetchOutcome StatusData) (s : St) :
    (updateStatus r s).statusInterval = s.statusInterval :=
  (updateStatus_preserves r s).2.1

@[simp] theorem updateStatus_videoSrc (r : FetchOutcome StatusData) (s : St) :
    (updateStatus r s).videoSrc = s.videoSrc := (updateStatus_preserves r s).2.2.1

@[simp] theorem updateStatus_statusFetchCount (r : FetchOutcome StatusData) (s : St) :
    (updateStatus r s).statusFetchCount = s.statusFetchCount + 1 := by
  cases r with
  | networkError => rfl
  | response ok body => cases body <;> rfl

@[simp] theorem startStatusUpdates_statusInterval (r : FetchOutcome StatusData)
    (s : St) : (startStatusUpdates r s).statusInterval = some 1000 := rfl

@[simp] theorem startStatusUpdates_isRunning (r : FetchOutcome StatusData)
    (s : St) : (startStatusUpdates r s).isRunning = s.isRunning := by
  simp [startStatusUpdates]

@[simp] theorem startStatusUpdates_videoSrc (r : FetchOutcome StatusData)
    (s : St) : (startStatusUpdates r s).videoSrc = s.videoSrc := by
  simp [startStatusUpdates]

@[simp] theorem startStatusUpdates_statusFetchCount (r : FetchOutcome StatusData)
    (s : St) : (startStatusUpdates r s).statusFetchCount = s.statusFetchCount + 1 := by
  simp [startStatusUpdates]

@[simp] theorem stopStatusUpdates_statusInterval (s : St) :
    (stopStatusUpdates s).statusInterval = none := by
  cases h : s.statusInterval <;> simp [stopStatusUpdates, h]

@[simp] theorem stopStatusUpdates_isRunning (s : St) :
    (stopStatusUpdates s).isRunning = s.isRunning := by
  cases h : s.statusInterval <;> simp [stopStatusUpdates, h]

@[simp] theorem stopStatusUpdates_videoSrc (s : St) :
    (stopStatusUpdates s).videoSrc = s.videoSrc := by
  cases h : s.statusInterval <;> simp [stopStatusUpdates, h]

@[simp] theorem stopStatusUpdates_statusFetchCount (s : St) :
    (stopStatusUpdates s).statusFetchCount = s.statusFetchCount := by
  cases h : s.statusInterval <;> simp [stopStatusUpdates, h]

theorem fetchRecordings_only_list (f : Option String)
    (r : FetchOutcome (List String)) (s : St) :
    ∃ v l, fetchRecordings f r s = { s with recordingsList := v, log := l } := by
  unfold fetchRecordings
  cases r with
  | networkError => exact ⟨_, _, rfl⟩
  | response ok body =>
      cases body with
      | none => exact ⟨_, _, rfl⟩
      | some recordings =>
          by_cases h : recordings.length = 0
          · simp only [if_pos h]
            exact ⟨_, _, rfl⟩
          · simp only [if_neg h]
            cases renderItems f recordings with
            | ok its => exact ⟨_, _, rfl⟩
            | error e => exact ⟨_, _, rfl⟩

@[simp] theorem fetchRecordings_isRunning (f : Option String)
    (r : FetchOutcome (List String)) (s : St) :
    (fetchRecordings f r s).isRunning = s.isRunning := by
  obtain ⟨v, l, h⟩ := fetchRecordings_only_list f r s
  rw [h]

@[simp] theorem fetchRecordings_statusInterval (f : Option String)
    (r : FetchOutcome (List String)) (s : St) :
    (fetchRecordings f r s).statusInterval = s.statusInterval := by
  obtain ⟨v, l, h⟩ := fetchRecordings_only_list f r s
  rw [h]

@[simp] theorem fetchRecordings_videoSrc (f : Option String)
    (r : FetchOutcome (List String)) (s : St) :
    (fetchRecordings f r s).videoSrc = s.videoSrc := by
  obtain ⟨v, l, h⟩ := fetchRecordings_only_list f r s
  rw [h]

@[simp] theorem fetchRecordings_statusFetchCount (f : Option String)
    (r : FetchOutcome (List String)) (s : St) :
    (fetchRecordings f r s).statusFetchCount = s.statusFetchCount := by
  obtain ⟨v, l, h⟩ := fetchRecordings_only_list f r s
  rw [h]

/-! ### The running-state invariant and event-sequence lemmas -/

theorem VIDEO_FEED_URL_ne_empty (origin : String) :
    VIDEO_FEED_URL origin ≠ "" := by
  intro h
  have hl := congrArg String.length h
  have h11 : ("/video_feed" : String).length = 11 := rfl
  rw [VIDEO_FEED_URL, String.length_append, h11] at hl
  simp at hl

theorem runInit_fields (cfg : Cfg) (d : DomInit) (r0 : FetchOutcome StatusData)
    (rr : FetchOutcome (List String)) :
    (runInit cfg d r0 rr).isRunning = true ∧
      (runInit cfg d r0 rr).statusInterval = some 1000 ∧
      (runInit cfg d r0 rr).videoSrc = VIDEO_FEED_URL cfg.origin := by
  refine ⟨?_, ?_, ?_⟩ <;> simp [runInit, initSt]

theorem runInit_inv (cfg : Cfg) (d : DomInit) (r0 : FetchOutcome StatusData)
    (rr : FetchOutcome (List String)) : RunInv cfg (runInit cfg d r0 rr) := by
  obtain ⟨h1, h2, h3⟩ := runInit_fields cfg d r0 rr
  exact ⟨fun _ => ⟨h2, h3⟩, fun h => by rw [h1] at h; cases h⟩

theorem step_inv (cfg : Cfg) (s : St) (e : Ev) (h : RunInv cfg s) :
    RunInv cfg (step cfg s e) := by
  obtain ⟨hT, hF⟩ := h
  cases e with
  | startClick r =>
      by_cases hr : s.isRunning = true
      · simp [step, hr]
        exact ⟨hT, hF⟩
      · rw [Bool.not_eq_true] at hr
        refine ⟨fun _ => ?_, fun hc => ?_⟩
        · simp [step, hr]
        · simp [step, hr] at hc
  | stopClick =>
      by_cases hr : s.isRunning = true
      · refine ⟨fun hc => ?_, fun _ => ?_⟩
        · simp [step, hr] at hc
        · simp [step, hr]
      · rw [Bool.not_eq_true] at hr
        simp [step, hr]
        exact ⟨hT, hF⟩
  | refreshClick r =>
      refine ⟨fun hc => ?_, fun hc => ?_⟩
      · simp only [step, fetchRecordings_isRunning] at hc
        have := hT hc
        simp [step, this.1, this.2]
      · simp only [step, fetchRecordings_isRunning] at hc
        have := hF hc
        simp [step, this.1, this.2]
  | videoError =>
      refine ⟨fun hc => ?_, fun hc => ?_⟩
      · simp only [step] at hc ⊢
        exact hT hc
      · simp only [step] at hc ⊢
        exact hF hc
  | tick r =>
      cases hi : s.statusInterval with
      | none =>
          simp only [step, hi]
          exact ⟨hT, hF⟩
      | some n =>
          refine ⟨fun hc => ?_, fun hc => ?_⟩
          · simp only [step, hi, updateStatus_isRunning] at hc
            have := hT hc
            rw [hi] at this
            obtain ⟨h1, h2⟩ := this
            injection h1 with hn
            simp [step, hi, hn, h2]
          · simp only [step, hi, updateStatus_isRunning] at hc
            have := hF hc
            rw [hi] at this
            cases this.1

theorem foldl_inv (cfg : Cfg) :
    ∀ (evs : List Ev) (s : St), RunInv cfg s →
      RunInv cfg (List.foldl (step cfg) s evs) := by
  intro evs
  induction evs with
  | nil => intro s h; exact h
  | cons e evs ih =>
      intro s h
      simp only [List.foldl]
      exact ih (step cfg s e) (step_inv cfg s e h)

theorem foldl_no_start (cfg : Cfg) :
    ∀ (evs : List Ev) (s : St), s.statusInterval = none →
      (∀ e ∈ evs, e.isStart = false) →
      (List.foldl (step cfg) s evs).statusInterval = none ∧
        (List.foldl (step cfg) s evs).statusFetchCount = s.statusFetchCount := by
  intro evs
  induction evs with
  | nil => intro s h _; exact ⟨h, rfl⟩
  | cons e evs ih =>
      intro s hI hall
      have he : e.isStart = false := hall e (by simp)
      have hstep : (step cfg s e).statusInterval = none ∧
          (step cfg s e).statusFetchCount = s.statusFetchCount := by
        cases e with
        | startClick r => simp [Ev.isStart] at he
        | stopClick =>
            by_cases hr : s.isRunning = true
            · simp [step, hr]
            · rw [Bool.not_eq_true] at hr
              simp [step, hr, hI]
        | refreshClick r => simp [step, hI]
        | videoError => exact ⟨hI, rfl⟩
        | tick r => simp [step, hI]
      simp only [List.foldl]
      obtain ⟨h1, h2⟩ := ih (step cfg s e) hstep.1 fun x hx => hall x (by simp [hx])
      exact ⟨h1, h2.trans hstep.2⟩

theorem foldl_no_stop (cfg : Cfg) :
    ∀ (evs : List Ev) (s : St), s.isRunning = true →
      (∀ e ∈ evs, e.isStop = false) →
      (List.foldl (step cfg) s evs).isRunning = true := by
  intro evs
  induction evs with
  | nil => intro s h _; exact h
  | cons e evs ih =>
      intro s hR hall
      have he : e.isStop = false := hall e (by simp)
      have hstep : (step cfg s e).isRunning = true := by
        cases e with
        | startClick r => simp [step, hR]
        | stopClick => simp [Ev.isStop] at he
        | refreshClick r => simp [step, hR]
        | videoError => simp [step, hR]
        | tick r =>
            cases hi : s.statusInterval with
            | none => simp [step, hi, hR]
            | some n => simp [step, hi, hR]
      simp only [List.foldl]
      exact ih (step cfg s e) hstep fun x hx => hall x (by simp [hx])

/-! ### Claim theorems -/

/-- C5: for every filename in the recordings response, a (leftmost)
match of `motion_(\d{8})_(\d{6})\.avi` renders the entry title as the
digits reformatted `YYYY-MM-DD HH:MM:SS` (`fmtTitle`), and a filename
with no match renders as itself unchanged. -/
theorem c5_recording_title (s : String) :
    (∀ pre d8 d6 suf, s.data = pre ++ (motionPat d8 d6 ++ suf) →
        MotionDigits d8 d6 →
        (∀ pre2 d8b d6b suf2, s.data = pre2 ++ (motionPat d8b d6b ++ suf2) →
            MotionDigits d8b d6b → pre.length ≤ pre2.length) →
        formatRecording s = fmtTitle d8 d6) ∧
    ((¬ ∃ pre d8 d6 suf, s.data = pre ++ (motionPat d8 d6 ++ suf) ∧
        MotionDigits d8 d6) → formatRecording s = s) := by
  constructor
  · intro pre d8 d6 suf hdecomp hdig hmin
    cases hsm : searchMotion s.data with
    | none => exact absurd hdig (searchMotion_none hsm pre d8 d6 suf hdecomp)
    | some g =>
        obtain ⟨da, db⟩ := g
        obtain ⟨preA, sufA, hA, hdigA, hminA⟩ := searchMotion_some hsm
        have hlen : pre.length = preA.length :=
          Nat.le_antisymm (hmin preA da db sufA hA hdigA)
            (hminA pre d8 d6 suf hdecomp hdig)
        have heq : motionPat d8 d6 ++ suf = motionPat da db ++ sufA :=
          (List.append_inj (hdecomp.symm.trans hA) hlen).2
        have h1 : d8 ++ ('_' :: (d6 ++ (aviLit ++ suf))) =
            da ++ ('_' :: (db ++ (aviLit ++ sufA))) := by
          have h' := heq
          simp only [motionPat, List.append_assoc, List.cons_append] at h'
          exact List.append_cancel_left h'
        have hlen8 : d8.length = da.length := by
          rw [hdig.1, hdigA.1]
        obtain ⟨hd8, hrest⟩ := List.append_inj h1 hlen8
        injection hrest with _ hrest'
        have hlen6 : d6.length = db.length := by
          rw [hdig.2.2.1, hdigA.2.2.1]
        obtain ⟨hd6, _⟩ := List.append_inj hrest' hlen6
        simp only [formatRecording, hsm]
        rw [hd8, hd6]
  · intro hne
    cases hsm : searchMotion s.data with
    | none => simp only [formatRecording, hsm]
    | some g =>
        obtain ⟨da, db⟩ := g
        obtain ⟨preA, sufA, hA, hdigA, _⟩ := searchMotion_some hsm
        exact absurd ⟨preA, da, db, sufA, hA, hdigA⟩ hne

/-- C5 witness: `motion_20240115_143022.avi` renders as
`2024-01-15 14:30:22` and `clip1.avi` renders as itself. -/
theorem c5_witness :
    formatRecording "motion_20240115_143022.avi" = "2024-01-15 14:30:22" ∧
    formatRecording "clip1.avi" = "clip1.avi" := by
  constructor
  · have h := (c5_recording_title "motion_20240115_143022.avi").1
      [] "20240115".data "143022".data []
      (by decide) (by decide) (fun pre2 _ _ _ _ _ => Nat.zero_le _)
    rw [h]
    decide
  · exact (c5_recording_title "clip1.avi").2
      fun ⟨pre, d8, d6, suf, hd, hdig⟩ =>
        searchMotion_none (by decide) pre d8 d6 suf hd hdig

/-- C2: a successful `updateStatus` whose body has `recording = true`
sets the recording label to `Recording` and gives the indicator the
`recording` class (and not `monitoring`); with `recording = false` it
sets `Not Recording` and the `monitoring` class (and not `recording`);
the two boolean cases are exhaustive. -/
theorem c2_recording_indicator (s : St) (ok : Bool) (data : StatusData) :
    (data.recording = true →
      (updateStatus (.response ok (some data)) s).recordingStatus =
        "Recording" ∧
      (updateStatus (.response ok (some data)) s).statusIndicator =
        "status-indicator recording" ∧
      hasClass (updateStatus (.response ok (some data)) s).statusIndicator
        "recording" = true ∧
      hasClass (updateStatus (.response ok (some data)) s).statusIndicator
        "monitoring" = false) ∧
    (data.recording = false →
      (updateStatus (.response ok (some data)) s).recordingStatus =
        "Not Recording" ∧
      (updateStatus (.response ok (some data)) s).statusIndicator =
        "status-indicator monitoring" ∧
      hasClass (updateStatus (.response ok (some data)) s).statusIndicator
        "monitoring" = true ∧
      hasClass (updateStatus (.response ok (some data)) s).statusIndicator
        "recording" = false) ∧
    (data.recording = true ∨ data.recording = false) := by
  refine ⟨fun h => ?_, fun h => ?_, ?_⟩
  · have e1 : (updateStatus (.response ok (some data)) s).recordingStatus =
        "Recording" := by simp [updateStatus, h]
    have e2 : (updateStatus (.response ok (some data)) s).statusIndicator =
        "status-indicator recording" := by simp [updateStatus, h]
    exact ⟨e1, e2, by rw [e2]; decide, by rw [e2]; decide⟩
  · have e1 : (updateStatus (.response ok (some data)) s).recordingStatus =
        "Not Recording" := by simp [updateStatus, h]
    have e2 : (updateStatus (.response ok (some data)) s).statusIndicator =
        "status-indicator monitoring" := by simp [updateStatus, h]
    exact ⟨e1, e2, by rw [e2]; decide, by rw [e2]; decide⟩
  · cases data.recording
    · exact Or.inr rfl
    · exact Or.inl rfl

/-- C2 witness: concrete bodies with `recording = true` and
`recording = false` produce the two labelled outcomes. -/
theorem c2_witness :
    (updateStatus (.response true (some sampleData)) sampleSt).recordingStatus =
      "Recording" ∧
    (updateStatus (.response true (some sampleDataOff)) sampleSt).recordingStatus =
      "Not Recording" :=
  ⟨((c2_recording_indicator sampleSt true sampleData).1 rfl).1,
   ((c2_recording_indicator sampleSt true sampleDataOff).2.1 rfl).1⟩

/-- C4 counterexample: an HTTP error response (`ok = false`) whose body
is valid JSON does change the status-display regions, so the claim's
"HTTP error response" failure category does not leave the display
unchanged. -/
theorem c4_counterexample :
    (updateStatus (.response false (some cexData)) sampleSt).statusText ≠
      sampleSt.statusText := by
  decide

/-- C4 (amended): for every failing status fetch that throws — a
network/transport failure or a body that is not valid JSON —
`updateStatus` leaves all four status-display regions exactly at their
pre-failure values and only logs the error (the operation is total, so
nothing propagates past its boundary); an HTTP error status by itself is
not a failure, because the response's ok flag is never read. -/
theorem c4_failure_keeps_display (s : St) (ok : Bool) :
    updateStatus .networkError s =
      { s with statusFetchCount := s.statusFetchCount + 1,
               log := "Error fetching status:" :: s.log } ∧
    updateStatus (.response ok none) s =
      { s with statusFetchCount := s.statusFetchCount + 1,
               log := "Error fetching status:" :: s.log } :=
  ⟨rfl, rfl⟩

/-- C8: a failing recordings fetch — rejected fetch or non-JSON body —
replaces the recordings list with exactly `Error loading recordings.`
and only additionally logs (the operation is total, so nothing
propagates past its boundary). -/
theorem c8_recordings_failure (f : Option String) (ok : Bool) (s : St) :
    fetchRecordings f .networkError s =
      { s with recordingsList := .message "Error loading recordings.",
               log := "Error fetching recordings:" :: s.log } ∧
    fetchRecordings f (.response ok none) s =
      { s with recordingsList := .message "Error loading recordings.",
               log := "Error fetching recordings:" :: s.log } :=
  ⟨rfl, rfl⟩

/-- C9: a recordings response parsing to the empty array renders exactly
the `No recordings found.` placeholder, and in particular no recording
items. -/
theorem c9_empty_recordings (f : Option String) (ok : Bool) (s : St) :
    fetchRecordings f (.response ok (some [])) s =
      { s with recordingsList := .message "No recordings found." } ∧
    ∀ l, (fetchRecordings f (.response ok (some [])) s).recordingsList ≠
      RecListView.items l := by
  constructor
  · rfl
  · intro l h
    simp [fetchRecordings] at h

/-- C1: after initialization, for every sequence of start-button,
stop-button, refresh-button, video-error (and timer-tick) events, the
status-polling timer is active iff the running flag is true, and the
video source is the (non-blank) live feed URL iff the running flag is
true. -/
theorem c1_poll_video_invariant (cfg : Cfg) (d : DomInit)
    (r0 : FetchOutcome StatusData) (rr : FetchOutcome (List String))
    (evs : List Ev) :
    ((List.foldl (step cfg) (runInit cfg d r0 rr) evs).statusInterval ≠ none ↔
      (List.foldl (step cfg) (runInit cfg d r0 rr) evs).isRunning = true) ∧
    (((List.foldl (step cfg) (runInit cfg d r0 rr) evs).videoSrc =
        VIDEO_FEED_URL cfg.origin ∧ VIDEO_FEED_URL cfg.origin ≠ "") ↔
      (List.foldl (step cfg) (runInit cfg d r0 rr) evs).isRunning = true) := by
  obtain ⟨hT, hF⟩ := foldl_inv cfg evs (runInit cfg d r0 rr)
    (runInit_inv cfg d r0 rr)
  cases hr : (List.foldl (step cfg) (runInit cfg d r0 rr) evs).isRunning with
  | true =>
      obtain ⟨h1, h2⟩ := hT hr
      rw [h1, h2]
      exact ⟨⟨fun _ => rfl, fun _ => by simp⟩,
        ⟨fun _ => rfl, fun _ => ⟨rfl, VIDEO_FEED_URL_ne_empty cfg.origin⟩⟩⟩
  | false =>
      obtain ⟨h1, h2⟩ := hF hr
      rw [h1, h2]
      refine ⟨⟨fun hx => (hx rfl).elim, fun hx => by cases hx⟩,
        ⟨fun hx => ?_, fun hx => by cases hx⟩⟩
      exact (VIDEO_FEED_URL_ne_empty cfg.origin hx.1.symm).elim

/-- C3: a stop click while running blanks the video source, cancels the
interval, clears the running flag and force-writes the five fixed
stopped display values; afterwards timer ticks are no-ops and, as long
as no start click occurs, no further status fetch is issued; a stop
click while not running changes nothing. -/
theorem c3_stop_click (cfg : Cfg) (s : St) :
    (s.isRunning = true →
      step cfg s .stopClick =
        { s with videoSrc := "", statusInterval := none, isRunning := false,
                 statusText := "Stopped",
                 statusIndicator := "status-indicator monitoring",
                 recordingStatus := "Not Recording", headCount := "0",
                 motionStatus := "System Stopped" } ∧
      (∀ r, step cfg (step cfg s .stopClick) (.tick r) =
        step cfg s .stopClick) ∧
      (∀ evs, (∀ e ∈ evs, e.isStart = false) →
        (List.foldl (step cfg) (step cfg s .stopClick) evs).statusFetchCount =
          (step cfg s .stopClick).statusFetchCount)) ∧
    (s.isRunning = false → step cfg s .stopClick = s) := by
  constructor
  · intro hr
    have hstop : step cfg s .stopClick =
        { s with videoSrc := "", statusInterval := none, isRunning := false,
                 statusText := "Stopped",
                 statusIndicator := "status-indicator monitoring",
                 recordingStatus := "Not Recording", headCount := "0",
                 motionStatus := "System Stopped" } := by
      cases hi : s.statusInterval <;>
        simp [step, hr, stopStatusUpdates, hi]
    refine ⟨hstop, fun r => ?_, fun evs hall => ?_⟩
    · rw [hstop]
      rfl
    · exact (foldl_no_start cfg evs _ (by rw [hstop]) hall).2
  · intro hr
    simp [step, hr]

/-- C3 witness: a concrete stop click from a running state writes the
stopped presentation, a following tick is a no-op, start-free event
sequences issue no status fetch, and a stop click from a stopped state
changes nothing. -/
theorem c3_witness :
    (step sampleCfg sampleSt .stopClick).statusText = "Stopped" ∧
    (step sampleCfg sampleSt .stopClick).headCount = "0" ∧
    step sampleCfg (step sampleCfg sampleSt .stopClick)
        (.tick .networkError) = step sampleCfg sampleSt .stopClick ∧
    (List.foldl (step sampleCfg) (step sampleCfg sampleSt .stopClick)
        [.tick .networkError, .videoError]).statusFetchCount =
      (step sampleCfg sampleSt .stopClick).statusFetchCount ∧
    step sampleCfg stoppedSt .stopClick = stoppedSt := by
  have h := (c3_stop_click sampleCfg sampleSt).1 rfl
  exact ⟨by rw [h.1], by rw [h.1], h.2.1 _, h.2.2 _ (by decide),
    (c3_stop_click sampleCfg stoppedSt).2 rfl⟩

/-- C6: `OUTPUT_FOLDER` is not among the identifiers the script defines;
with no external binding for it, building any entry's markup fails, so
for every non-empty recordings response the per-entry rendering aborts
and only the catch branch absorbs the error, leaving the error
message. -/
theorem c6_output_folder_undefined :
    scriptDefinedNames.contains "OUTPUT_FOLDER" = false ∧
    (∀ recording, renderItem none recording = .error ()) ∧
    (∀ (s : St) (ok : Bool) (recs : List String), recs ≠ [] →
      (fetchRecordings none (.response ok (some recs)) s).recordingsList =
        .message "Error loading recordings.") := by
  refine ⟨by decide, fun _ => rfl, ?_⟩
  intro s ok recs hne
  cases recs with
  | nil => exact absurd rfl hne
  | cons r rs => simp [fetchRecordings, renderItems, renderItem]

/-- C6 witness: a concrete one-element recordings response renders the
error message when `OUTPUT_FOLDER` has no binding. -/
theorem c6_witness :
    (fetchRecordings none (.response true (some ["motion_1.avi"]))
        sampleSt).recordingsList = .message "Error loading recordings." :=
  c6_output_folder_undefined.2.2 sampleSt true ["motion_1.avi"] (by decide)

/-- C7: a start click while not running restores the live feed source,
issues one status fetch immediately and schedules further fetches every
1000 ms, and sets the running flag; a start click while running changes
nothing. -/
theorem c7_start_click (cfg : Cfg) (s : St) (r : FetchOutcome StatusData) :
    (s.isRunning = false →
      (step cfg s (.startClick r)).videoSrc = VIDEO_FEED_URL cfg.origin ∧
      (step cfg s (.startClick r)).statusInterval = some 1000 ∧
      (step cfg s (.startClick r)).statusFetchCount =
        s.statusFetchCount + 1 ∧
      (step cfg s (.startClick r)).isRunning = true) ∧
    (s.isRunning = true → step cfg s (.startClick r) = s) := by
  constructor
  · intro hr
    simp [step, hr]
  · intro hr
    simp [step, hr]

/-- C7 witness: a concrete start click from a stopped state restores the
feed URL and the 1000 ms interval and issues one fetch; from a running
state it changes nothing. -/
theorem c7_witness :
    (step sampleCfg stoppedSt (.startClick .networkError)).videoSrc =
      VIDEO_FEED_URL sampleCfg.origin ∧
    (step sampleCfg stoppedSt (.startClick .networkError)).statusInterval =
      some 1000 ∧
    (step sampleCfg stoppedSt (.startClick .networkError)).statusFetchCount =
      stoppedSt.statusFetchCount + 1 ∧
    step sampleCfg sampleSt (.startClick .networkError) = sampleSt := by
  have h := (c7_start_click sampleCfg stoppedSt .networkError).1 rfl
  exact ⟨h.1, h.2.1, h.2.2.1,
    (c7_start_click sampleCfg sampleSt .networkError).2 rfl⟩

/-- C10: the running flag is already true before `init` runs, so a start
click after load that is preceded by no stop click is a no-op. -/
theorem c10_start_before_stop (cfg : Cfg) (d : DomInit)
    (r0 : FetchOutcome StatusData) (rr : FetchOutcome (List String))
    (evs : List Ev) (r : FetchOutcome StatusData) :
    (initSt d).isRunning = true ∧
    ((∀ e ∈ evs, e.isStop = false) →
      step cfg (List.foldl (step cfg) (runInit cfg d r0 rr) evs)
          (.startClick r) =
        List.foldl (step cfg) (runInit cfg d r0 rr) evs) := by
  refine ⟨rfl, fun hall => ?_⟩
  have hrun : (List.foldl (step cfg) (runInit cfg d r0 rr) evs).isRunning =
      true :=
    foldl_no_stop cfg evs _ (runInit_fields cfg d r0 rr).1 hall
  simp [step, hrun]

/-- C10 witness: with no events after load, a start click leaves the
initialized state unchanged. -/
theorem c10_witness :
    step sampleCfg (runInit sampleCfg sampleDom .networkError .networkError)
        (.startClick .networkError) =
      runInit sampleCfg sampleDom .networkError .networkError :=
  (c10_start_before_stop sampleCfg sampleDom .networkError .networkError []
      .networkError).2 (by decide)

end CrowdScope
